import Mathlib

/-!
Shallow embedding of `src/demo.py` (a single-file research-assistant chat
application) together with proofs about its orchestration, rendering and
session-state logic.

The repository code under `src/` is glue around two external runtimes
(pydantic-ai's agent loop and the Tavily search client).  Where a claim
depends on behaviour that the repository only configures (the agent's
synthesis retry loop, the provider-side truncation of search results),
the missing piece is modelled from the specification and marked as such
in its doc comment.  Everything else is translated directly from
`src/demo.py`.
-/

/-- A value appearing in a model-produced payload field; the pydantic
schema of `ResearchResult` only accepts string fields, so validation must
distinguish strings from non-strings. -/
inductive JsonValue
  | jstr (s : String)
  | jint (n : Int)
deriving DecidableEq, Repr

/-- A raw synthesis payload: an association list of field names to values,
standing for the JSON object the language model emits. -/
abbrev Payload := List (String × JsonValue)

/-- `ResearchResult` from `src/demo.py` (lines 44-53): three required
string fields `research_title`, `research_main`, `research_bullets`.
No field carries any non-emptiness constraint. -/
structure ResearchResult where
  research_title : String
  research_main : String
  research_bullets : String
deriving DecidableEq, Repr

/-- Field lookup in a payload (first binding wins). -/
def getField : Payload → String → Option JsonValue
  | [], _ => none
  | (k, v) :: rest, key => if k = key then some v else getField rest key

/-- Coerce a looked-up field to a string, failing on absence or wrong type. -/
def asString : Option JsonValue → Option String
  | some (JsonValue.jstr s) => some s
  | _ => none

/-- Modelled from the spec: pydantic validation of a payload against the
`ResearchResult` shape.  The validation machinery lives in the pydantic
library, not under `src/`; the field set and their types are taken from
the `ResearchResult` class in `src/demo.py`.  A payload validates exactly
when all three fields are present and are strings; no emptiness check. -/
def validate_research_result (p : Payload) : Option ResearchResult :=
  match asString (getField p "research_title"),
        asString (getField p "research_main"),
        asString (getField p "research_bullets") with
  | some t, some m, some b =>
      some { research_title := t, research_main := m, research_bullets := b }
  | _, _, _ => none

/-- The failure taxonomy of the spec's error-handling design. -/
inductive RunError
  | synthesisFailure (lastPayload : Payload)
  | toolFailure (tool_name : String)
deriving DecidableEq, Repr

/-- `retries=5` passed to `Agent` in `src/demo.py` line 72. -/
def search_agent_retries : Nat := 5

/-- Modelled from the spec: the agent runtime's bounded retry loop around
synthesis validation (the loop itself lives in the pydantic-ai library,
not under `src/`; the budget is `search_agent_retries` from `src/demo.py`
and the spec fixes the budget at 5 attempts).  `synth i` is the payload
the model produces on attempt `i`; `fuel` is the number of attempts still
allowed.  On exhaustion the failure carries the last invalid payload. -/
def synthLoop (synth : Nat → Payload) : Nat → Nat → Except RunError ResearchResult
  | 0, attempt => Except.error (RunError.synthesisFailure (synth (attempt - 1)))
  | fuel + 1, attempt =>
      match validate_research_result (synth attempt) with
      | some r => Except.ok r
      | none => synthLoop synth fuel (attempt + 1)

/-- Modelled from the spec: one orchestrator run's synthesis phase, with
the retry budget configured in `src/demo.py`. -/
def agent_run (synth : Nat → Payload) : Except RunError ResearchResult :=
  synthLoop synth search_agent_retries 0

/-- Number of synthesis attempts the loop performs. -/
def synthAttempts (synth : Nat → Payload) : Nat → Nat → Nat
  | 0, _ => 0
  | fuel + 1, attempt =>
      match validate_research_result (synth attempt) with
      | some _ => 1
      | none => 1 + synthAttempts synth fuel (attempt + 1)

/-- Number of synthesis attempts a run performs. -/
def agent_run_attempts (synth : Nat → Payload) : Nat :=
  synthAttempts synth search_agent_retries 0

/-- A chat message stored in `st.session_state.messages`. -/
structure StoredMessage where
  role : String
  content : String
deriving DecidableEq, Repr

/-- Messages of the pydantic-ai history (`UserPrompt` / `ModelTextResponse`
from `src/demo.py` line 22). -/
inductive AgentMessage
  | userPrompt (content : String)
  | modelTextResponse (content : String)
deriving DecidableEq, Repr

/-- `get_message_history` from `src/demo.py` (lines 115-122): walks the
stored messages in order, converting user turns to `UserPrompt` and
assistant turns to `ModelTextResponse`, and skipping any other role. -/
def get_message_history : List StoredMessage → List AgentMessage
  | [] => []
  | msg :: rest =>
      if msg.role = "user" then
        AgentMessage.userPrompt msg.content :: get_message_history rest
      else if msg.role = "assistant" then
        AgentMessage.modelTextResponse msg.content :: get_message_history rest
      else
        get_message_history rest

/-- The per-role conversion `get_message_history` applies to a kept turn. -/
def convert_turn (msg : StoredMessage) : AgentMessage :=
  if msg.role = "user" then AgentMessage.userPrompt msg.content
  else AgentMessage.modelTextResponse msg.content

/-- `initialize_chat` from `src/demo.py` (lines 106-108), with the session
state's `messages` key modelled as an `Option`: absent (`none`) becomes the
empty list, present is left untouched. -/
def init_chat : Option (List StoredMessage) → Option (List StoredMessage)
  | none => some []
  | some msgs => some msgs

/-- The successive values shown by `message_placeholder.markdown` in the
streaming loop of `main` (`src/demo.py` lines 159-163): starting from the
accumulator `acc`, each part is appended and the accumulated text is
displayed. -/
def streamDisplays (acc : String) : List String → List String
  | [] => []
  | part :: rest => (acc ++ part) :: streamDisplays (acc ++ part) rest

/-- The final value of `full_response` after the streaming loop of `main`. -/
def foldParts (acc : String) : List String → String
  | [] => acc
  | part :: rest => foldParts (acc ++ part) rest

/-- The rendered text of a successful turn:
title, blank line, body, blank line, bullets. -/
def fullText (r : ResearchResult) : String :=
  r.research_title ++ "\n\n" ++ r.research_main ++ "\n\n" ++ r.research_bullets

/-- The error banner `main` renders on any exception
(`src/demo.py` line 171). -/
def errorBanner (e : RunError) : String :=
  "An error occurred: " ++
    match e with
    | RunError.synthesisFailure _ => "synthesis output failed validation"
    | RunError.toolFailure tool => "tool " ++ tool ++ " failed"

/-- One chat turn of `main` in `src/demo.py` (lines 129-171), given the
outcome of the agent run.  Returns the session messages after the turn, the
list of texts rendered into the assistant placeholder by the streaming
loop, and the error banner if one was rendered.  On success the
`response_parts` list, the accumulation into `full_response`, and the final
`extend` of `st.session_state.messages` mirror the source; on any failure
the `except` handler renders the banner and the `extend` is never
reached. -/
def runTurn (messages : List StoredMessage) (prompt : String)
    (outcome : Except RunError ResearchResult) :
    List StoredMessage × List String × Option String :=
  match outcome with
  | Except.ok r =>
      let response_parts :=
        [r.research_title, "\n\n", r.research_main, "\n\n", r.research_bullets]
      let full_response := foldParts "" response_parts
      (messages ++
        [{ role := "user", content := prompt },
         { role := "assistant", content := full_response }],
       streamDisplays "" response_parts,
       none)
  | Except.error e => (messages, [], some (errorBanner e))

/-- `ConfigurationFailure` from the spec's error taxonomy: a required
credential is missing at startup.  In `src/demo.py` line 27 this surfaces
as the `KeyError` of `os.environ["TAVILY_API_KEY"]` at module load. -/
inductive StartupError
  | configurationFailure (variable_name : String)
deriving DecidableEq, Repr

/-- The Tavily client handle created at startup. -/
structure AsyncTavilyClient where
  api_key : String
deriving DecidableEq, Repr

/-- Module-level startup of `src/demo.py` (lines 25-27): reading
`TAVILY_API_KEY` from the environment and constructing the search client.
`env` maps a variable name to its value if set.  A missing key aborts
startup before any query handling is defined. -/
def startup (env : String → Option String) :
    Except StartupError AsyncTavilyClient :=
  match env "TAVILY_API_KEY" with
  | none => Except.error (StartupError.configurationFailure "TAVILY_API_KEY")
  | some key => Except.ok { api_key := key }

/-- Argument types appearing in the tool signatures exposed to the model. -/
inductive ParamType
  | string
  | integer
deriving DecidableEq, Repr

/-- A named, typed argument of a tool. -/
structure ToolParam where
  param_name : String
  param_type : ParamType
deriving DecidableEq, Repr

/-- The name and argument shape of one tool exposed to the model. -/
structure ToolSpec where
  tool_name : String
  params : List ToolParam
deriving DecidableEq, Repr

/-- The signature of `add_toolkit_information` in `src/demo.py`
(lines 76-90): the `ctx : RunContext` argument is not part of the schema
shown to the model, leaving `query: str`. -/
def add_toolkit_information_tool : ToolSpec :=
  { tool_name := "add_toolkit_information",
    params := [{ param_name := "query", param_type := ParamType.string }] }

/-- The signature of `get_search` in `src/demo.py` (lines 92-103): after
the hidden `ctx` argument, `query: str` and `query_number: int`. -/
def get_search_tool : ToolSpec :=
  { tool_name := "get_search",
    params := [{ param_name := "query", param_type := ParamType.string },
               { param_name := "query_number", param_type := ParamType.integer }] }

/-- The registry of tools attached to `search_agent` via `@search_agent.tool`
in `src/demo.py`: exactly the two decorated functions, in source order. -/
def registered_tools : List ToolSpec :=
  [add_toolkit_information_tool, get_search_tool]

/-- A single search hit as the spec's `ToolResult`. -/
structure ToolResult where
  source : String
  content : String
deriving DecidableEq, Repr

/-- Modelled from the spec: the Tavily client's
`get_search_context(query=..., max_results=...)`; the client library is not
under `src/`.  Per the spec's SearchProvider contract it enforces that
`max_results` is a positive integer and truncates the provider's raw result
list when it is longer than `max_results`.  `provider` stands for the
remote provider's raw answer as a function of the query. -/
def tavily_get_search_context (provider : String → List ToolResult)
    (query : String) (max_results : Int) : Except RunError (List ToolResult) :=
  if max_results ≤ 0 then Except.error (RunError.toolFailure "search")
  else Except.ok ((provider query).take max_results.toNat)

/-- The `max_results` literal passed by `get_search` in `src/demo.py`
line 103. -/
def get_search_max_results : Int := 3

/-- The tool body of `get_search` in `src/demo.py` (lines 92-103): forwards
the query to the Tavily client with `max_results=3`.  `provider` is the
remote provider's raw answer as a function of the query; `query_number` is
only logged by the source, so it does not affect the result. -/
def get_search (provider : String → List ToolResult) (query : String)
    (query_number : Int) : Except RunError (List ToolResult) :=
  tavily_get_search_context provider query get_search_max_results

/-! ## Helper lemmas -/

/-- The loop never performs more attempts than it has fuel. -/
theorem synthAttempts_le (synth : Nat → Payload) :
    ∀ (fuel attempt : Nat), synthAttempts synth fuel attempt ≤ fuel := by
  intro fuel
  induction fuel with
  | zero => intro attempt; simp [synthAttempts]
  | succ fuel ih =>
      intro attempt
      rw [synthAttempts]
      cases validate_research_result (synth attempt) with
      | none =>
          have := ih (attempt + 1)
          simp only []
          omega
      | some r => simp

/-- If every attempt's payload is invalid, the loop exhausts its fuel and
fails carrying the last attempted payload. -/
theorem synthLoop_all_invalid (synth : Nat → Payload)
    (h : ∀ i, validate_research_result (synth i) = none) :
    ∀ (fuel attempt : Nat),
      synthLoop synth fuel attempt =
        Except.error (RunError.synthesisFailure (synth (attempt + fuel - 1))) := by
  intro fuel
  induction fuel with
  | zero => intro attempt; rfl
  | succ fuel ih =>
      intro attempt
      have hidx : attempt + (fuel + 1) - 1 = attempt + 1 + fuel - 1 := by omega
      rw [synthLoop, h attempt, ih (attempt + 1), hidx]

/-- If every attempt's payload is invalid, the loop performs exactly
`fuel` attempts. -/
theorem synthAttempts_all_invalid (synth : Nat → Payload)
    (h : ∀ i, validate_research_result (synth i) = none) :
    ∀ (fuel attempt : Nat), synthAttempts synth fuel attempt = fuel := by
  intro fuel
  induction fuel with
  | zero => intro attempt; rfl
  | succ fuel ih =>
      intro attempt
      rw [synthAttempts, h attempt]
      show 1 + synthAttempts synth fuel (attempt + 1) = fuel + 1
      rw [ih (attempt + 1)]
      omega

/-- The loop either succeeds or fails with a `synthesisFailure`; it never
produces a `toolFailure` of its own. -/
theorem synthLoop_cases (synth : Nat → Payload) :
    ∀ (fuel attempt : Nat),
      (∃ r, synthLoop synth fuel attempt = Except.ok r) ∨
      (∃ p, synthLoop synth fuel attempt =
        Except.error (RunError.synthesisFailure p)) := by
  intro fuel
  induction fuel with
  | zero => intro attempt; exact Or.inr ⟨synth (attempt - 1), rfl⟩
  | succ fuel ih =>
      intro attempt
      rw [synthLoop]
      cases hv : validate_research_result (synth attempt) with
      | none => simpa using ih (attempt + 1)
      | some r => exact Or.inl ⟨r, rfl⟩

/-- A payload holding the three fields as strings always validates, to
exactly those field values. -/
def mkResultPayload (t m b : String) : Payload :=
  [("research_title", JsonValue.jstr t),
   ("research_main", JsonValue.jstr m),
   ("research_bullets", JsonValue.jstr b)]

/-! ## Claim theorems -/

/-- Claim C1: if synthesis always produces a payload that fails validation,
the run performs exactly `search_agent_retries = 5` synthesis attempts and
then fails with a `SynthesisFailure` carrying the last (fifth, index 4)
invalid payload; no run ever performs more than 5 attempts. -/
theorem retry_bound_five_attempts (synth : Nat → Payload) :
    agent_run_attempts synth ≤ search_agent_retries ∧
    ((∀ i, validate_research_result (synth i) = none) →
      agent_run synth = Except.error (RunError.synthesisFailure (synth 4)) ∧
      agent_run_attempts synth = 5) := by
  refine ⟨synthAttempts_le synth search_agent_retries 0, fun h => ⟨?_, ?_⟩⟩
  · have := synthLoop_all_invalid synth h search_agent_retries 0
    simpa [agent_run, search_agent_retries] using this
  · have := synthAttempts_all_invalid synth h search_agent_retries 0
    simpa [agent_run_attempts, search_agent_retries] using this

/-- Witness for C1: a model that always emits the empty payload (which
fails validation) is retried exactly 5 times and the run fails. -/
theorem retry_bound_five_attempts_witness :
    agent_run (fun _ => ([] : Payload)) =
      Except.error (RunError.synthesisFailure []) ∧
    agent_run_attempts (fun _ => ([] : Payload)) = 5 :=
  (retry_bound_five_attempts (fun _ => ([] : Payload))).2 (fun _ => rfl)

/-- The all-empty payload: every field present, every field the empty
string. -/
def all_empty_payload : Payload := mkResultPayload "" "" ""

/-- Counterexample to claim C2: a model output whose three fields are all
empty strings passes shape validation, so the run succeeds and returns a
`ResearchResult` whose `research_title`, `research_main` and
`research_bullets` are all empty — it is neither a typed failure nor a
result with non-empty body. -/
theorem all_fields_empty_counterexample :
    agent_run (fun _ => all_empty_payload) =
      Except.ok { research_title := "", research_main := "",
                  research_bullets := "" } := by
  rfl

/-- Claim C2 (amended): every run either returns a `ResearchResult` or
raises a `SynthesisFailure`; shape validation only requires the three
fields to be present strings, so any string values — including all three
empty — are accepted verbatim. -/
theorem run_returns_result_or_typed_failure (synth : Nat → Payload) :
    ((∃ r, agent_run synth = Except.ok r) ∨
     (∃ p, agent_run synth = Except.error (RunError.synthesisFailure p))) ∧
    ∀ t m b : String,
      validate_research_result (mkResultPayload t m b) =
        some { research_title := t, research_main := m,
               research_bullets := b } :=
  ⟨synthLoop_cases synth search_agent_retries 0, fun _ _ _ => rfl⟩

/-- Claim C3: when the agent run fails with any error, the session message
list is returned unchanged — no user turn and no assistant turn is
appended — nothing is streamed, and the error banner is rendered. -/
theorem failed_run_leaves_transcript_unchanged (messages : List StoredMessage)
    (prompt : String) (e : RunError) :
    (runTurn messages prompt (Except.error e)).1 = messages ∧
    (runTurn messages prompt (Except.error e)).2.1 = [] ∧
    (runTurn messages prompt (Except.error e)).2.2 = some (errorBanner e) :=
  ⟨rfl, rfl, rfl⟩

/-- Claim C4: a successful turn streams exactly the five successive
accumulations title, title+sep, title+sep+body, title+sep+body+sep, and the
full concatenation (each one extends the previous, and each is an initial
segment of the full text, witnessed by the remaining suffix), renders no
error, and appends exactly one user/assistant pair whose assistant content
is the full concatenation title ++ blank line ++ body ++ blank line ++
bullets. -/
theorem successful_turn_streams_and_appends_pair
    (messages : List StoredMessage) (prompt : String) (r : ResearchResult) :
    runTurn messages prompt (Except.ok r) =
      (messages ++
        [{ role := "user", content := prompt },
         { role := "assistant", content := fullText r }],
       [r.research_title,
        r.research_title ++ "\n\n",
        r.research_title ++ "\n\n" ++ r.research_main,
        r.research_title ++ "\n\n" ++ r.research_main ++ "\n\n",
        fullText r],
       none) ∧
    (∃ t, r.research_title ++ t = fullText r) ∧
    (∃ t, r.research_title ++ "\n\n" ++ t = fullText r) ∧
    (∃ t, r.research_title ++ "\n\n" ++ r.research_main ++ t = fullText r) ∧
    (∃ t, (r.research_title ++ "\n\n" ++ r.research_main ++ "\n\n") ++ t =
      fullText r) ∧
    fullText r ++ "" = fullText r := by
  refine ⟨rfl,
    ⟨"\n\n" ++ r.research_main ++ "\n\n" ++ r.research_bullets, ?_⟩,
    ⟨r.research_main ++ "\n\n" ++ r.research_bullets, ?_⟩,
    ⟨"\n\n" ++ r.research_bullets, ?_⟩,
    ⟨r.research_bullets, ?_⟩, ?_⟩ <;>
  simp [fullText, String.append_assoc]

/-- Counterexample to claim C5: the two tools registered on `search_agent`
are named `add_toolkit_information` and `get_search`, not
`knowledge_lookup` and `web_search`. -/
theorem tool_names_counterexample :
    registered_tools.map ToolSpec.tool_name ≠
      ["knowledge_lookup", "web_search"] := by
  decide

/-- Claim C5 (amended): the tool-call contract exposed to the model
consists of exactly two tools, `add_toolkit_information(query: string)` and
`get_search(query: string, query_number: integer)`. -/
theorem tool_registry_names_and_shapes :
    registered_tools.length = 2 ∧
    registered_tools.map ToolSpec.tool_name =
      ["add_toolkit_information", "get_search"] ∧
    registered_tools.map ToolSpec.params =
      [[{ param_name := "query", param_type := ParamType.string }],
       [{ param_name := "query", param_type := ParamType.string },
        { param_name := "query_number", param_type := ParamType.integer }]] := by
  refine ⟨rfl, rfl, rfl⟩

/-- Claim C6: when `TAVILY_API_KEY` is absent from the environment, startup
fails with a `ConfigurationFailure` before any query handling exists; when
it is present, startup proceeds and yields the search client. -/
theorem missing_tavily_key_fails_startup (env : String → Option String) :
    (env "TAVILY_API_KEY" = none →
      startup env =
        Except.error (StartupError.configurationFailure "TAVILY_API_KEY")) ∧
    (∀ key, env "TAVILY_API_KEY" = some key →
      startup env = Except.ok { api_key := key }) := by
  constructor
  · intro h
    simp [startup, h]
  · intro key h
    simp [startup, h]

/-- Witness for C6: an empty environment aborts startup; an environment
holding the key proceeds to a client built from it. -/
theorem missing_tavily_key_fails_startup_witness :
    startup (fun _ => none) =
      Except.error (StartupError.configurationFailure "TAVILY_API_KEY") ∧
    startup (fun _ => some "tvly-secret") =
      Except.ok { api_key := "tvly-secret" } :=
  ⟨(missing_tavily_key_fails_startup (fun _ => none)).1 rfl,
   (missing_tavily_key_fails_startup (fun _ => some "tvly-secret")).2
     "tvly-secret" rfl⟩

/-- Claim C7: on a transcript consisting of user/assistant turns (the only
roles the application ever stores), the history handed to the agent is the
turn-by-turn conversion of the whole transcript: every stored turn appears,
with its original content, in its original order, and nothing is
dropped. -/
theorem transcript_replayed_verbatim (msgs : List StoredMessage)
    (h : ∀ m ∈ msgs, m.role = "user" ∨ m.role = "assistant") :
    get_message_history msgs = msgs.map convert_turn := by
  induction msgs with
  | nil => rfl
  | cons msg rest ih =>
      have hmsg := h msg (List.mem_cons_self msg rest)
      have hrest := fun m hm => h m (List.mem_cons_of_mem msg hm)
      rw [get_message_history, List.map_cons, convert_turn]
      rcases hmsg with hu | ha
      · rw [if_pos hu, if_pos hu, ih hrest]
      · by_cases hu : msg.role = "user"
        · rw [if_pos hu, if_pos hu, ih hrest]
        · rw [if_neg hu, if_neg hu, if_pos ha, ih hrest]

/-- A concrete one-pair transcript used to witness C7. -/
def prior_pair_transcript : List StoredMessage :=
  [{ role := "user", content := "What is the capital of France?" },
   { role := "assistant", content := "# Capital of France\n\nParis." }]

/-- Witness for C7: a transcript holding one prior user/assistant pair is
replayed in full, in order, with its contents intact. -/
theorem transcript_replayed_verbatim_witness :
    get_message_history prior_pair_transcript =
      [AgentMessage.userPrompt "What is the capital of France?",
       AgentMessage.modelTextResponse "# Capital of France\n\nParis."] :=
  (transcript_replayed_verbatim prior_pair_transcript (by decide)).trans
    (by decide)

/-- Claim C8: `get_search` always forwards `max_results = 3` (a positive
value) to the provider, and the returned result list is the provider's raw
list truncated to the first 3 hits, hence never longer than 3. -/
theorem search_requests_at_most_three (provider : String → List ToolResult)
    (query : String) (query_number : Int) :
    get_search_max_results = 3 ∧
    0 < get_search_max_results ∧
    get_search provider query query_number =
      Except.ok ((provider query).take 3) ∧
    ((provider query).take 3).length ≤ 3 := by
  refine ⟨rfl, by norm_num [get_search_max_results], rfl, ?_⟩
  simp

/-- Claim C9: the agent history keeps exactly the stored messages whose
role is `"user"` or `"assistant"`, in their original order, converting each
kept one; a message with any other role is silently dropped. -/
theorem history_keeps_exactly_user_assistant (msgs : List StoredMessage) :
    get_message_history msgs =
      (msgs.filter
        (fun m => m.role == "user" || m.role == "assistant")).map
        convert_turn := by
  induction msgs with
  | nil => rfl
  | cons msg rest ih =>
      rw [get_message_history, List.filter_cons]
      by_cases hu : msg.role = "user"
      · simp only [hu, if_pos rfl]
        simp [convert_turn, hu, ih]
      · by_cases ha : msg.role = "assistant"
        · simp only [if_neg hu]
          simp [convert_turn, hu, ha, ih]
        · simp only [if_neg hu, if_neg ha]
          simp [hu, ha, ih]

/-- Claim C10: chat initialization is idempotent — an existing `messages`
list is left exactly as it is, a missing one becomes the empty list, and
applying initialization twice equals applying it once. -/
theorem init_chat_idempotent :
    (∀ msgs, init_chat (some msgs) = some msgs) ∧
    init_chat none = some ([] : List StoredMessage) ∧
    ∀ s, init_chat (init_chat s) = init_chat s := by
  refine ⟨fun msgs => rfl, rfl, fun s => ?_⟩
  cases s <;> rfl
